import Mathlib

/-!
Verification development for the AN30259A three-channel LED driver
(drivers/leds/leds-an30259a.c).

The shadow register image is modelled as a function `Nat → Nat` whose
relevant indices are the 21 byte registers 0x00–0x14; every cell holds a
byte value.  Process-wide tunables (the C globals `led_intensity`,
`led_speed`, `led_enable_fade`, the slope presets, the per-channel
current constants, the calibration offsets, the low-power flag and the
"disable samsung pattern" flag) are collected in a `Globals` record that
is passed explicitly to each operation.  `u8` stores are modelled with
`% 256`; `u8` bit operations use `&&& (255 ^^^ mask)` for `&= ~mask`,
which agrees with the C semantics on byte values.  C `int` division is
Nat division wherever the divisor is known nonzero on the paths a
theorem talks about; in `an30259a_start_led_pattern`, where reachability
of a zero divisor is itself the question, divisions by `led_speed` are
modelled with an explicit checked division (`cdiv`) so that a division
by zero is observable as `none` (in C it is undefined behaviour).
-/

/-- Register map constants of the AN30259A, as in the source header. -/
def AN30259A_REG_SRESET : Nat := 0x00

def AN30259A_REG_LEDON : Nat := 0x01

def AN30259A_REG_SEL : Nat := 0x02

def AN30259A_REG_LED1CC : Nat := 0x03

def AN30259A_REG_LED1SLP : Nat := 0x06

def AN30259A_REG_LED1CNT1 : Nat := 0x09

def AN30259A_REG_LED1CNT2 : Nat := 0x0a

def AN30259A_REG_LED1CNT3 : Nat := 0x0b

def AN30259A_REG_LED1CNT4 : Nat := 0x0c

def AN30259A_REG_MAX : Nat := 0x15

def AN30259A_MASK_DELAY : Nat := 0xf0

def LED_SLOPE_MODE : Nat := 0x10

def LED_ON : Nat := 0x01

def SLPTT_MAX_VALUE : Nat := 7500

def AN30259A_TIME_UNIT : Nat := 500

def LED_MAX_CURRENT : Nat := 0xFF

def LED_OFF : Nat := 0x00

def AN30259A_CTN_RW_FLG : Nat := 0x80

/-- Pattern enumeration value `PATTERN_OFF`. -/
def PATTERN_OFF : Int := 0

/-- Pattern enumeration value `CHARGING`. -/
def CHARGING : Int := 1

/-- Pattern enumeration value `CHARGING_ERR`. -/
def CHARGING_ERR : Int := 2

/-- Pattern enumeration value `MISSED_NOTI`. -/
def MISSED_NOTI : Int := 3

/-- Pattern enumeration value `LOW_BATTERY`. -/
def LOW_BATTERY : Int := 4

/-- Pattern enumeration value `FULLY_CHARGED`. -/
def FULLY_CHARGED : Int := 5

/-- Pattern enumeration value `POWERING`. -/
def POWERING : Int := 6

/-- The process-wide tunable state of the driver: the C file's globals.
`led_offset` is the per-channel calibration offset array, indexed by the
channel number 0, 1, 2. -/
structure Globals where
  led_enable_fade : Nat
  led_intensity : Nat
  led_speed : Nat
  led_slope_up_1 : Nat
  led_slope_up_2 : Nat
  led_slope_down_1 : Nat
  led_slope_down_2 : Nat
  LED_R_CURRENT : Nat
  LED_G_CURRENT : Nat
  LED_B_CURRENT : Nat
  led_offset : Nat → Nat
  disabled_samsung_pattern : Nat
  LED_LOWPOWER_MODE : Nat
  led_lowpower_cur : Nat
  led_default_cur : Nat

/-- Point update of the shadow register image. -/
def upd (f : Nat → Nat) (i v : Nat) : Nat → Nat :=
  fun j => if j = i then v else f j

theorem upd_same (f : Nat → Nat) (i v : Nat) : upd f i v i = v := by
  simp [upd]

theorem upd_other (f : Nat → Nat) (i v j : Nat) (h : j ≠ i) :
    upd f i v j = f j := by
  simp [upd, h]

/-- Embedding of `leds_on`: sets or clears the per-channel enable bit,
clears the start-delay field on the off path, sets the slope-mode bit
only when `slopemode` is requested and the global speed divisor is
nonzero (zero divisor means continuous light), and stores the
current-code byte.  A nonzero current code gets the channel's
calibration offset added; the store is a `u8` assignment, hence the
`% 256` truncation. -/
def leds_on (g : Globals) (shadow : Nat → Nat) (led : Fin 3)
    (onflag slopemode : Bool) (ledcc : Nat) : Nat → Nat :=
  let cc := if ledcc > 0 then (ledcc + g.led_offset led.val) % 256 else ledcc
  let s1 :=
    if onflag then
      upd shadow AN30259A_REG_LEDON
        ((shadow AN30259A_REG_LEDON) ||| (LED_ON <<< led.val))
    else
      let t := upd shadow AN30259A_REG_LEDON
        ((shadow AN30259A_REG_LEDON) &&& (255 ^^^ (LED_ON <<< led.val)))
      upd t (AN30259A_REG_LED1CNT2 + led.val * 4)
        ((t (AN30259A_REG_LED1CNT2 + led.val * 4)) &&& (255 ^^^ AN30259A_MASK_DELAY))
  let s2 :=
    if slopemode ∧ g.led_speed ≠ 0 then
      upd s1 AN30259A_REG_LEDON
        ((s1 AN30259A_REG_LEDON) ||| (LED_SLOPE_MODE <<< led.val))
    else
      upd s1 AN30259A_REG_LEDON
        ((s1 AN30259A_REG_LEDON) &&& (255 ^^^ (LED_SLOPE_MODE <<< led.val)))
  upd s2 (AN30259A_REG_LED1CC + led.val) cc

/-- Embedding of `leds_set_slope_mode`: packs the duty, delay and
detention-time nibbles into the four per-channel counter registers and
the two phase totals into the per-channel slope register.  Each store is
a `u8` assignment, hence the `% 256` truncation. -/
def leds_set_slope_mode (shadow : Nat → Nat) (led : Fin 3)
    (delay dutymax dutymid dutymin slptt1 slptt2 dt1 dt2 dt3 dt4 : Nat) :
    Nat → Nat :=
  let s1 := upd shadow (AN30259A_REG_LED1CNT1 + led.val * 4)
    ((dutymax <<< 4 ||| dutymid) % 256)
  let s2 := upd s1 (AN30259A_REG_LED1CNT2 + led.val * 4)
    ((delay <<< 4 ||| dutymin) % 256)
  let s3 := upd s2 (AN30259A_REG_LED1CNT3 + led.val * 4)
    ((dt2 <<< 4 ||| dt1) % 256)
  let s4 := upd s3 (AN30259A_REG_LED1CNT4 + led.val * 4)
    ((dt4 <<< 4 ||| dt3) % 256)
  upd s4 (AN30259A_REG_LED1SLP + led.val) ((slptt2 <<< 4 ||| slptt1) % 256)

/-- Nibble packing: for nibble-range operands the packed byte keeps both
operands recoverable as its high and low nibble. -/
theorem pack_nibbles (a b : Nat) (ha : a ≤ 15) (hb : b ≤ 15) :
    ((a <<< 4 ||| b) % 256) / 16 = a ∧ ((a <<< 4 ||| b) % 256) % 16 = b := by
  interval_cases a <;> interval_cases b <;> decide

/-- Checked division: `none` models the C undefined behaviour of an
integer division by zero. -/
def cdiv (a b : Nat) : Option Nat :=
  if b = 0 then none else some (a / b)

/-- The per-channel current constant selected by `an30259a_set_led_blink`
into `LED_DYNAMIC_CURRENT` (channel R, G or B). -/
def channelCurrent (g : Globals) (led : Fin 3) : Nat :=
  if led.val = 0 then g.LED_R_CURRENT
  else if led.val = 1 then g.LED_G_CURRENT
  else g.LED_B_CURRENT

/-- The brightness-resolution step of `an30259a_set_led_blink` (source
lines 516–530): clamp the request to `LED_MAX_CURRENT`, then scale it by
the global intensity: value 40 scales by the channel's dynamic current,
any other nonzero value scales by the intensity itself, and 0 leaves the
clamped request as is.  `LED_DYNAMIC_CURRENT` is a `u8` global, so the
channel current constant is truncated to a byte when it is loaded. -/
def blink_resolved_brightness (g : Globals) (led : Fin 3) (brightness : Nat) : Nat :=
  let b := if brightness > LED_MAX_CURRENT then LED_MAX_CURRENT else brightness
  let dyn := channelCurrent g led % 256
  if g.led_intensity = 40 then b * dyn / LED_MAX_CURRENT
  else if g.led_intensity ≠ 0 then b * g.led_intensity / LED_MAX_CURRENT
  else b

/-- Embedding of `an30259a_set_led_blink`.  Returns the new shadow image
and the new value of the `LED_DYNAMIC_CURRENT` global (`dyn` is its
value on entry; it is only reassigned past the brightness-0 early
return).  The divisions by `led_speed` on the slope path are C `int`
divisions; theorems about that path assume `led_speed ≠ 0` (for
`led_speed = 0` the C expression divides by zero). -/
def an30259a_set_led_blink (g : Globals) (dyn : Nat) (shadow : Nat → Nat)
    (led : Fin 3) (delay_on_time delay_off_time brightness : Nat) :
    (Nat → Nat) × Nat :=
  if brightness = LED_OFF then (leds_on g shadow led false false brightness, dyn)
  else
    let dyn1 := channelCurrent g led % 256
    let b := blink_resolved_brightness g led brightness
    let don := if delay_on_time > SLPTT_MAX_VALUE then SLPTT_MAX_VALUE else delay_on_time
    let doff := if delay_off_time > SLPTT_MAX_VALUE then SLPTT_MAX_VALUE else delay_off_time
    if doff = LED_OFF then
      let s1 := leds_on g shadow led true false b
      let s2 := if b = LED_OFF then leds_on g s1 led false false b else s1
      (s2, dyn1)
    else
      let s1 := leds_on g shadow led true true b
      if g.led_enable_fade = 1 then
        (leds_set_slope_mode s1 led 0 (15 / g.led_speed) (7 / g.led_speed) 0
          ((don / g.led_speed + AN30259A_TIME_UNIT - 1) / AN30259A_TIME_UNIT)
          ((doff / g.led_speed + AN30259A_TIME_UNIT - 1) / AN30259A_TIME_UNIT)
          g.led_slope_up_1 g.led_slope_up_2 g.led_slope_down_1 g.led_slope_down_2,
         dyn1)
      else
        (leds_set_slope_mode s1 led 0 (15 / g.led_speed) (15 / g.led_speed) 0
          ((don / g.led_speed + AN30259A_TIME_UNIT - 1) / AN30259A_TIME_UNIT)
          ((doff / g.led_speed + AN30259A_TIME_UNIT - 1) / AN30259A_TIME_UNIT)
          0 0 0 0,
         dyn1)

/-- Embedding of `an30259a_reset_register_work`'s shadow mutation: all
three channels forced off (the commit it then issues is modelled by
`leds_i2c_write_all` separately). -/
def an30259a_reset_register_work (g : Globals) (shadow : Nat → Nat) : Nat → Nat :=
  leds_on g (leds_on g (leds_on g shadow 0 false false 0) 1 false false 0) 2 false false 0

/-- Embedding of `an30259a_start_led_pattern`.  `dyn` is the value of the
`LED_DYNAMIC_CURRENT` global on entry; the result carries the new shadow
image and the new value of that global.  Divisions by `led_speed` use
`cdiv`, so the result is `none` exactly when the C code would divide by
zero.  The commits (`leds_i2c_write_all` calls) issued on the way are
bus traffic, not shadow-image mutation, and are modelled separately by
`leds_i2c_write_all`. -/
def an30259a_start_led_pattern (g : Globals) (dyn : Nat) (shadow : Nat → Nat)
    (mode : Int) : Option ((Nat → Nat) × Nat) :=
  if mode > POWERING then some (shadow, dyn)
  else if g.disabled_samsung_pattern ≠ 0 then some (shadow, dyn)
  else
    let s0 := an30259a_reset_register_work g shadow
    if mode = 0 then some (s0, dyn)
    else
      let dyn1 := if g.LED_LOWPOWER_MODE = 1 then g.led_lowpower_cur % 256
                  else g.led_default_cur % 256
      let r_brightness := (if g.led_intensity = 0 then g.LED_R_CURRENT
                           else min g.led_intensity LED_MAX_CURRENT) % 256
      let g_brightness := (if g.led_intensity = 0 then g.LED_G_CURRENT
                           else min g.led_intensity LED_MAX_CURRENT) % 256
      let b_brightness := (if g.led_intensity = 0 then g.LED_B_CURRENT
                           else min g.led_intensity LED_MAX_CURRENT) % 256
      if mode = CHARGING then
        some (leds_on g s0 0 true false r_brightness, dyn1)
      else if mode = CHARGING_ERR then
        let s1 := leds_on g s0 0 true true r_brightness
        if g.led_enable_fade = 1 then
          match cdiv 15 g.led_speed, cdiv 7 g.led_speed with
          | some dmax, some dmid =>
            some (leds_set_slope_mode s1 0 1 dmax dmid 0 1 1
              g.led_slope_up_1 g.led_slope_up_2 g.led_slope_down_1 g.led_slope_down_2, dyn1)
          | _, _ => none
        else
          match cdiv 15 g.led_speed with
          | some dmax =>
            some (leds_set_slope_mode s1 0 1 dmax dmax 0 1 1 0 0 0 0, dyn1)
          | none => none
      else if mode = MISSED_NOTI then
        let s1 := leds_on g s0 2 true true b_brightness
        if g.led_enable_fade = 1 then
          match cdiv 15 g.led_speed, cdiv 7 g.led_speed, cdiv 10 g.led_speed with
          | some dmax, some dmid, some t2 =>
            some (leds_set_slope_mode s1 2 10 dmax dmid 0 1 t2
              g.led_slope_up_1 g.led_slope_up_2 g.led_slope_down_1 g.led_slope_down_2, dyn1)
          | _, _, _ => none
        else
          match cdiv 15 g.led_speed, cdiv 10 g.led_speed with
          | some dmax, some t2 =>
            some (leds_set_slope_mode s1 2 10 dmax dmax 0 1 t2 0 0 0 0, dyn1)
          | _, _ => none
      else if mode = LOW_BATTERY then
        let s1 := leds_on g s0 0 true true r_brightness
        if g.led_enable_fade = 1 then
          match cdiv 15 g.led_speed, cdiv 7 g.led_speed, cdiv 10 g.led_speed with
          | some dmax, some dmid, some t2 =>
            some (leds_set_slope_mode s1 0 10 dmax dmid 0 1 t2
              g.led_slope_up_1 g.led_slope_up_2 g.led_slope_down_1 g.led_slope_down_2, dyn1)
          | _, _, _ => none
        else
          match cdiv 15 g.led_speed, cdiv 10 g.led_speed with
          | some dmax, some t2 =>
            some (leds_set_slope_mode s1 0 10 dmax dmax 0 1 t2 0 0 0 0, dyn1)
          | _, _ => none
      else if mode = FULLY_CHARGED then
        some (leds_on g s0 1 true false g_brightness, dyn1)
      else if mode = POWERING then
        some (leds_set_slope_mode (leds_on g s0 2 true true dyn1) 2
          0 15 12 8 2 2 3 3 3 3, dyn1)
      else
        some (s0, dyn1)

/-- Embedding of `store_an30259a_led_speed` applied to an already-parsed
integer: the new divisor is stored only when it lies in 0–15, any other
parsed value leaves the stored divisor unchanged. -/
def store_an30259a_led_speed (cur : Int) (parsed : Int) : Int :=
  if 0 ≤ parsed ∧ parsed ≤ 15 then parsed else cur

/-- One bus operation issued by the commit engine. -/
inductive BusOp where
  | blockWrite (addr : Nat) (len : Nat) (bytes : List Nat)
  | byteWrite (addr : Nat) (value : Nat)
deriving DecidableEq

/-- Outcome of the two transport calls a commit can make: the `int`
return value of the config-block write and of the enable-byte write
(negative means transport failure, as in the kernel i2c API). -/
structure Transport where
  blockRet : Int
  byteRet : Int

/-- The config-register block serialized by the commit: every shadow
byte from the select register to the end of the image. -/
def configBlock (shadow : Nat → Nat) : List Nat :=
  (List.range (AN30259A_REG_MAX - AN30259A_REG_SEL)).map
    (fun k => shadow (AN30259A_REG_SEL + k))

/-- Embedding of `leds_i2c_write_all`.  Under the device mutex, first
the config block (select register through end of image) is written, then
the single enable byte.  Returns the `int` result, the ordered list of
bus operations actually attempted, whether the mutex is still held at
return, and the shadow image at return (the function never mutates it:
no rollback on failure). -/
def leds_i2c_write_all (t : Transport) (shadow : Nat → Nat) :
    Int × List BusOp × Bool × (Nat → Nat) :=
  let blockOp := BusOp.blockWrite (AN30259A_REG_SEL ||| AN30259A_CTN_RW_FLG)
    (AN30259A_REG_MAX - AN30259A_REG_SEL) (configBlock shadow)
  if t.blockRet < 0 then
    (t.blockRet, [blockOp], false, shadow)
  else
    let byteOp := BusOp.byteWrite AN30259A_REG_LEDON (shadow AN30259A_REG_LEDON)
    if t.byteRet < 0 then
      (t.byteRet, [blockOp, byteOp], false, shadow)
    else
      (0, [blockOp, byteOp], false, shadow)

/-- All-zero shadow image used as a concrete starting state. -/
def shadow0 : Nat → Nat := fun _ => 0

/-- Values written by `leds_set_slope_mode`: the four counter registers
and the slope register of the selected channel hold the packed bytes. -/
theorem leds_set_slope_mode_eval (shadow : Nat → Nat) (led : Fin 3)
    (delay dutymax dutymid dutymin slptt1 slptt2 dt1 dt2 dt3 dt4 : Nat) :
    leds_set_slope_mode shadow led delay dutymax dutymid dutymin slptt1 slptt2 dt1 dt2 dt3 dt4
        (AN30259A_REG_LED1CNT1 + led.val * 4) = (dutymax <<< 4 ||| dutymid) % 256 ∧
    leds_set_slope_mode shadow led delay dutymax dutymid dutymin slptt1 slptt2 dt1 dt2 dt3 dt4
        (AN30259A_REG_LED1CNT2 + led.val * 4) = (delay <<< 4 ||| dutymin) % 256 ∧
    leds_set_slope_mode shadow led delay dutymax dutymid dutymin slptt1 slptt2 dt1 dt2 dt3 dt4
        (AN30259A_REG_LED1CNT3 + led.val * 4) = (dt2 <<< 4 ||| dt1) % 256 ∧
    leds_set_slope_mode shadow led delay dutymax dutymid dutymin slptt1 slptt2 dt1 dt2 dt3 dt4
        (AN30259A_REG_LED1CNT4 + led.val * 4) = (dt4 <<< 4 ||| dt3) % 256 ∧
    leds_set_slope_mode shadow led delay dutymax dutymid dutymin slptt1 slptt2 dt1 dt2 dt3 dt4
        (AN30259A_REG_LED1SLP + led.val) = (slptt2 <<< 4 ||| slptt1) % 256 := by
  fin_cases led <;>
    simp [leds_set_slope_mode, upd, AN30259A_REG_LED1CNT1, AN30259A_REG_LED1CNT2,
      AN30259A_REG_LED1CNT3, AN30259A_REG_LED1CNT4, AN30259A_REG_LED1SLP]

/-- Frame of `leds_set_slope_mode`: any register other than the five it
writes keeps its previous value. -/
theorem leds_set_slope_mode_frame (shadow : Nat → Nat) (led : Fin 3)
    (delay dutymax dutymid dutymin slptt1 slptt2 dt1 dt2 dt3 dt4 : Nat) (i : Nat)
    (h1 : i ≠ AN30259A_REG_LED1CNT1 + led.val * 4)
    (h2 : i ≠ AN30259A_REG_LED1CNT2 + led.val * 4)
    (h3 : i ≠ AN30259A_REG_LED1CNT3 + led.val * 4)
    (h4 : i ≠ AN30259A_REG_LED1CNT4 + led.val * 4)
    (h5 : i ≠ AN30259A_REG_LED1SLP + led.val) :
    leds_set_slope_mode shadow led delay dutymax dutymid dutymin slptt1 slptt2 dt1 dt2 dt3 dt4 i
      = shadow i := by
  simp [leds_set_slope_mode, upd, h1, h2, h3, h4, h5]

/-- C8: the slope-encode packing round-trips: for any nibble-range
duty/delay arguments (hence in particular duty_max = 15, duty_mid = 7,
duty_min = 0), decoding the high and low nibbles of the two packed
counter bytes written by `leds_set_slope_mode` recovers exactly the
original values. -/
theorem leds_set_slope_mode_pack_roundtrip (shadow : Nat → Nat) (led : Fin 3)
    (delay dutymax dutymid dutymin : Fin 16) (slptt1 slptt2 dt1 dt2 dt3 dt4 : Nat) :
    leds_set_slope_mode shadow led delay.val dutymax.val dutymid.val dutymin.val
        slptt1 slptt2 dt1 dt2 dt3 dt4 (AN30259A_REG_LED1CNT1 + led.val * 4) / 16
      = dutymax.val ∧
    leds_set_slope_mode shadow led delay.val dutymax.val dutymid.val dutymin.val
        slptt1 slptt2 dt1 dt2 dt3 dt4 (AN30259A_REG_LED1CNT1 + led.val * 4) % 16
      = dutymid.val ∧
    leds_set_slope_mode shadow led delay.val dutymax.val dutymid.val dutymin.val
        slptt1 slptt2 dt1 dt2 dt3 dt4 (AN30259A_REG_LED1CNT2 + led.val * 4) / 16
      = delay.val ∧
    leds_set_slope_mode shadow led delay.val dutymax.val dutymid.val dutymin.val
        slptt1 slptt2 dt1 dt2 dt3 dt4 (AN30259A_REG_LED1CNT2 + led.val * 4) % 16
      = dutymin.val := by
  obtain ⟨h1, h2, -, -, -⟩ := leds_set_slope_mode_eval shadow led delay.val dutymax.val
    dutymid.val dutymin.val slptt1 slptt2 dt1 dt2 dt3 dt4
  obtain ⟨p1, p2⟩ := pack_nibbles dutymax.val dutymid.val
    (Nat.le_of_lt_succ dutymax.isLt) (Nat.le_of_lt_succ dutymid.isLt)
  obtain ⟨q1, q2⟩ := pack_nibbles delay.val dutymin.val
    (Nat.le_of_lt_succ delay.isLt) (Nat.le_of_lt_succ dutymin.isLt)
  exact ⟨h1 ▸ p1, h1 ▸ p2, h2 ▸ q1, h2 ▸ q2⟩

/-- C10: `leds_set_slope_mode` mutates exactly the four counter
registers and the slope register of the selected channel — every other
register (the enable byte, the current-code bytes, the select register
and all registers of the other two channels) keeps its value — and the
five written bytes hold the packed nibble values. -/
theorem leds_set_slope_mode_exactly_five (shadow : Nat → Nat) (led : Fin 3)
    (delay dutymax dutymid dutymin slptt1 slptt2 dt1 dt2 dt3 dt4 : Nat) :
    (∀ i, i ≠ AN30259A_REG_LED1CNT1 + led.val * 4 →
      i ≠ AN30259A_REG_LED1CNT2 + led.val * 4 →
      i ≠ AN30259A_REG_LED1CNT3 + led.val * 4 →
      i ≠ AN30259A_REG_LED1CNT4 + led.val * 4 →
      i ≠ AN30259A_REG_LED1SLP + led.val →
      leds_set_slope_mode shadow led delay dutymax dutymid dutymin slptt1 slptt2 dt1 dt2 dt3 dt4 i
        = shadow i) ∧
    leds_set_slope_mode shadow led delay dutymax dutymid dutymin slptt1 slptt2 dt1 dt2 dt3 dt4
        (AN30259A_REG_LED1CNT1 + led.val * 4) = (dutymax <<< 4 ||| dutymid) % 256 ∧
    leds_set_slope_mode shadow led delay dutymax dutymid dutymin slptt1 slptt2 dt1 dt2 dt3 dt4
        (AN30259A_REG_LED1CNT2 + led.val * 4) = (delay <<< 4 ||| dutymin) % 256 ∧
    leds_set_slope_mode shadow led delay dutymax dutymid dutymin slptt1 slptt2 dt1 dt2 dt3 dt4
        (AN30259A_REG_LED1CNT3 + led.val * 4) = (dt2 <<< 4 ||| dt1) % 256 ∧
    leds_set_slope_mode shadow led delay dutymax dutymid dutymin slptt1 slptt2 dt1 dt2 dt3 dt4
        (AN30259A_REG_LED1CNT4 + led.val * 4) = (dt4 <<< 4 ||| dt3) % 256 ∧
    leds_set_slope_mode shadow led delay dutymax dutymid dutymin slptt1 slptt2 dt1 dt2 dt3 dt4
        (AN30259A_REG_LED1SLP + led.val) = (slptt2 <<< 4 ||| slptt1) % 256 := by
  refine ⟨fun i h1 h2 h3 h4 h5 =>
    leds_set_slope_mode_frame shadow led delay dutymax dutymid dutymin slptt1 slptt2
      dt1 dt2 dt3 dt4 i h1 h2 h3 h4 h5, ?_⟩
  exact leds_set_slope_mode_eval shadow led delay dutymax dutymid dutymin slptt1 slptt2
    dt1 dt2 dt3 dt4

/-- Witness for C10: at channel R the enable byte (register 0x01) is an
index distinct from all five written registers and is left unchanged. -/
theorem leds_set_slope_mode_exactly_five_witness :
    ((AN30259A_REG_LEDON ≠ AN30259A_REG_LED1CNT1 + (0 : Fin 3).val * 4) ∧
     (AN30259A_REG_LEDON ≠ AN30259A_REG_LED1CNT2 + (0 : Fin 3).val * 4) ∧
     (AN30259A_REG_LEDON ≠ AN30259A_REG_LED1CNT3 + (0 : Fin 3).val * 4) ∧
     (AN30259A_REG_LEDON ≠ AN30259A_REG_LED1CNT4 + (0 : Fin 3).val * 4) ∧
     (AN30259A_REG_LEDON ≠ AN30259A_REG_LED1SLP + (0 : Fin 3).val)) ∧
    leds_set_slope_mode shadow0 0 1 15 7 0 1 1 0 0 0 0 AN30259A_REG_LEDON
      = shadow0 AN30259A_REG_LEDON :=
  ⟨⟨by decide, by decide, by decide, by decide, by decide⟩,
   (leds_set_slope_mode_exactly_five shadow0 0 1 15 7 0 1 1 0 0 0 0).1
     AN30259A_REG_LEDON (by decide) (by decide) (by decide) (by decide) (by decide)⟩

/-- C2: the commit engine always attempts the config-block write (select
register through end of image) first; the enable byte is written only
after it succeeds.  The mutex is released on every path, the in-memory
shadow image is returned exactly as attempted (no rollback), and when
the config-block write fails the enable byte is never attempted and the
transport's negative error code is surfaced to the caller. -/
theorem leds_i2c_write_all_spec (t : Transport) (shadow : Nat → Nat) :
    (leds_i2c_write_all t shadow).2.1 =
      BusOp.blockWrite (AN30259A_REG_SEL ||| AN30259A_CTN_RW_FLG)
          (AN30259A_REG_MAX - AN30259A_REG_SEL) (configBlock shadow) ::
        (if t.blockRet < 0 then []
         else [BusOp.byteWrite AN30259A_REG_LEDON (shadow AN30259A_REG_LEDON)]) ∧
    (leds_i2c_write_all t shadow).2.2.1 = false ∧
    (leds_i2c_write_all t shadow).2.2.2 = shadow ∧
    (t.blockRet < 0 →
      (leds_i2c_write_all t shadow).1 = t.blockRet ∧ (leds_i2c_write_all t shadow).1 < 0) := by
  by_cases hb : t.blockRet < 0 <;> by_cases hy : t.byteRet < 0 <;>
    simp [leds_i2c_write_all, hb, hy]

/-- Witness for C2: a transport failing the config-block write with -5
yields exactly one attempted bus operation (the config block), no enable
byte write, and surfaces -5. -/
theorem leds_i2c_write_all_spec_witness :
    ((-5 : Int) < 0) ∧
    (leds_i2c_write_all ⟨-5, 0⟩ shadow0).1 = -5 ∧
    (leds_i2c_write_all ⟨-5, 0⟩ shadow0).2.1 =
      [BusOp.blockWrite (AN30259A_REG_SEL ||| AN30259A_CTN_RW_FLG)
        (AN30259A_REG_MAX - AN30259A_REG_SEL) (configBlock shadow0)] :=
  ⟨by decide,
   ((leds_i2c_write_all_spec ⟨-5, 0⟩ shadow0).2.2.2 (by decide)).1,
   (leds_i2c_write_all_spec ⟨-5, 0⟩ shadow0).1.trans (by decide)⟩

/-- Counterexample for C9: the speed setter does not accept 60 — parsing
60 leaves a stored divisor of 1 unchanged, whereas the claim says the
stored divisor becomes 60. -/
theorem store_an30259a_led_speed_rejects_60 :
    store_an30259a_led_speed 1 60 = 1 ∧ (1 : Int) ≠ 60 := by
  constructor
  · rfl
  · decide

/-- C9 (amended): the speed setter accepts exactly the parsed integers 0
through 15 — any such value becomes the stored divisor — and every
parsed integer outside 0–15 (in particular 16–60) leaves the stored
divisor unchanged, silently ignored rather than rejected with an
error. -/
theorem store_an30259a_led_speed_spec (cur v : Int) :
    (0 ≤ v ∧ v ≤ 15 → store_an30259a_led_speed cur v = v) ∧
    (¬(0 ≤ v ∧ v ≤ 15) → store_an30259a_led_speed cur v = cur) := by
  constructor <;> intro h <;> simp [store_an30259a_led_speed, h]

/-- Witness for C9: 7 is stored; 20 is ignored. -/
theorem store_an30259a_led_speed_spec_witness :
    ((0 ≤ (7 : Int) ∧ (7 : Int) ≤ 15) ∧ store_an30259a_led_speed 1 7 = 7) ∧
    (¬(0 ≤ (20 : Int) ∧ (20 : Int) ≤ 15) ∧ store_an30259a_led_speed 1 20 = 1) :=
  ⟨⟨by decide, (store_an30259a_led_speed_spec 1 7).1 (by decide)⟩,
   ⟨by decide, (store_an30259a_led_speed_spec 1 20).2 (by decide)⟩⟩

/-- Setting bits cannot clear a bit present in the mask. -/
theorem testBit_set_self (x m i : Nat) (h : m.testBit i = true) :
    (x ||| m).testBit i = true := by
  simp [Nat.testBit_or, h]

/-- Masking with a mask whose bit is clear clears that bit. -/
theorem testBit_clear_self (x m i : Nat) (h : m.testBit i = false) :
    (x &&& m).testBit i = false := by
  simp [Nat.testBit_and, h]

/-- Masking with a mask whose bit is set preserves that bit. -/
theorem testBit_and_other (x m i : Nat) (h : m.testBit i = true) :
    (x &&& m).testBit i = x.testBit i := by
  simp [Nat.testBit_and, h]

/-- Setting bits not in the mask preserves the other bits. -/
theorem testBit_or_other (x m i : Nat) (h : m.testBit i = false) :
    (x ||| m).testBit i = x.testBit i := by
  simp [Nat.testBit_or, h]

/-- Sample globals: the Samsung-stock defaults installed at probe time
(intensity 40, speed 1, fade disabled, 0x28 currents, zero offsets). -/
def gSamsung : Globals :=
  { led_enable_fade := 0, led_intensity := 40, led_speed := 1,
    led_slope_up_1 := 1, led_slope_up_2 := 1,
    led_slope_down_1 := 1, led_slope_down_2 := 1,
    LED_R_CURRENT := 0x28, LED_G_CURRENT := 0x28, LED_B_CURRENT := 0x28,
    led_offset := fun _ => 0, disabled_samsung_pattern := 0,
    LED_LOWPOWER_MODE := 0, led_lowpower_cur := 0x05, led_default_cur := 0x28 }

/-- C1: for every requested brightness up to 255, the blink-set
operation resolves the effective brightness by exactly three branches of
the global intensity scale: scale 0 passes the request through (clamped
to 255), scale 40 scales by the channel's dynamic current over 255 in
integer division, and any other scale value scales by the scale itself
over 255. -/
theorem blink_resolved_brightness_three_branches (g : Globals) (led : Fin 3)
    (b : Nat) (hb : b ≤ 255) :
    blink_resolved_brightness g led b =
      if g.led_intensity = 0 then min b 255
      else if g.led_intensity = 40 then b * (channelCurrent g led % 256) / 255
      else b * g.led_intensity / 255 := by
  have hcl : ¬ (255 < b) := by omega
  by_cases h0 : g.led_intensity = 0
  · simp [blink_resolved_brightness, h0, hcl, LED_MAX_CURRENT]
    omega
  · by_cases h40 : g.led_intensity = 40
    · simp [blink_resolved_brightness, h0, h40, hcl, LED_MAX_CURRENT]
    · simp [blink_resolved_brightness, h0, h40, hcl, LED_MAX_CURRENT]

/-- Witness for C1: requested brightness 200 under the stock intensity
40 resolves through the reference branch. -/
theorem blink_resolved_brightness_three_branches_witness :
    (200 : Nat) ≤ 255 ∧
    blink_resolved_brightness gSamsung 0 200 =
      (if gSamsung.led_intensity = 0 then min 200 255
       else if gSamsung.led_intensity = 40 then 200 * (channelCurrent gSamsung 0 % 256) / 255
       else 200 * gSamsung.led_intensity / 255) :=
  ⟨by decide, blink_resolved_brightness_three_branches gSamsung 0 200 (by decide)⟩

/-- Evaluation of `leds_on` on the steady-on path (`on = true`,
`slopemode = false`): the enable byte gets the enable bit or-ed in and
the slope-mode bit masked out, the channel's current-code byte is
stored, and every other register is untouched. -/
theorem leds_on_steady_eval (g : Globals) (shadow : Nat → Nat) (led : Fin 3) (cc : Nat) :
    leds_on g shadow led true false cc AN30259A_REG_LEDON
      = (shadow AN30259A_REG_LEDON ||| (LED_ON <<< led.val)) &&&
        (255 ^^^ (LED_SLOPE_MODE <<< led.val)) ∧
    leds_on g shadow led true false cc (AN30259A_REG_LED1CC + led.val)
      = (if cc > 0 then (cc + g.led_offset led.val) % 256 else cc) ∧
    (∀ i, i ≠ AN30259A_REG_LEDON → i ≠ AN30259A_REG_LED1CC + led.val →
      leds_on g shadow led true false cc i = shadow i) := by
  have h1 : AN30259A_REG_LEDON ≠ AN30259A_REG_LED1CC + led.val := by
    simp only [AN30259A_REG_LEDON, AN30259A_REG_LED1CC]
    omega
  refine ⟨?_, ?_, fun i hi1 hi2 => ?_⟩
  · simp [leds_on, upd, h1]
  · simp [leds_on, upd]
  · simp [leds_on, upd, hi1, hi2]

/-- Evaluation of `leds_on` on the slope path (`on = true`,
`slopemode = true`) under a nonzero speed divisor: both the enable bit
and the slope-mode bit are or-ed into the enable byte. -/
theorem leds_on_slope_eval (g : Globals) (shadow : Nat → Nat) (led : Fin 3) (cc : Nat)
    (hs : g.led_speed ≠ 0) :
    leds_on g shadow led true true cc AN30259A_REG_LEDON
      = (shadow AN30259A_REG_LEDON ||| (LED_ON <<< led.val)) |||
        (LED_SLOPE_MODE <<< led.val) ∧
    leds_on g shadow led true true cc (AN30259A_REG_LED1CC + led.val)
      = (if cc > 0 then (cc + g.led_offset led.val) % 256 else cc) ∧
    (∀ i, i ≠ AN30259A_REG_LEDON → i ≠ AN30259A_REG_LED1CC + led.val →
      leds_on g shadow led true true cc i = shadow i) := by
  have h1 : AN30259A_REG_LEDON ≠ AN30259A_REG_LED1CC + led.val := by
    simp only [AN30259A_REG_LEDON, AN30259A_REG_LED1CC]
    omega
  refine ⟨?_, ?_, fun i hi1 hi2 => ?_⟩
  · simp [leds_on, upd, h1, hs]
  · simp [leds_on, upd, hs]
  · simp [leds_on, upd, hi1, hi2, hs]

/-- Evaluation of `leds_on` on the off path (`on = false`): enable and
slope-mode bits masked out, the start-delay field cleared, the
current-code byte stored. -/
theorem leds_on_off_eval (g : Globals) (shadow : Nat → Nat) (led : Fin 3) (cc : Nat) :
    leds_on g shadow led false false cc AN30259A_REG_LEDON
      = ((shadow AN30259A_REG_LEDON) &&& (255 ^^^ (LED_ON <<< led.val))) &&&
        (255 ^^^ (LED_SLOPE_MODE <<< led.val)) ∧
    leds_on g shadow led false false cc (AN30259A_REG_LED1CNT2 + led.val * 4)
      = (shadow (AN30259A_REG_LED1CNT2 + led.val * 4)) &&& (255 ^^^ AN30259A_MASK_DELAY) ∧
    leds_on g shadow led false false cc (AN30259A_REG_LED1CC + led.val)
      = (if cc > 0 then (cc + g.led_offset led.val) % 256 else cc) ∧
    (∀ i, i ≠ AN30259A_REG_LEDON → i ≠ AN30259A_REG_LED1CNT2 + led.val * 4 →
      i ≠ AN30259A_REG_LED1CC + led.val →
      leds_on g shadow led false false cc i = shadow i) := by
  have h1 : AN30259A_REG_LEDON ≠ AN30259A_REG_LED1CC + led.val := by
    simp only [AN30259A_REG_LEDON, AN30259A_REG_LED1CC]
    omega
  have h2 : AN30259A_REG_LEDON ≠ AN30259A_REG_LED1CNT2 + led.val * 4 := by
    simp only [AN30259A_REG_LEDON, AN30259A_REG_LED1CNT2]
    omega
  have h3 : AN30259A_REG_LED1CNT2 + led.val * 4 ≠ AN30259A_REG_LED1CC + led.val := by
    simp only [AN30259A_REG_LED1CC, AN30259A_REG_LED1CNT2]
    omega
  refine ⟨?_, ?_, ?_, fun i hi1 hi2 hi3 => ?_⟩
  · simp [leds_on, upd, h1, h2]
  · simp [leds_on, upd, h3, h2.symm]
  · simp [leds_on, upd]
  · simp [leds_on, upd, hi1, hi2, hi3]

/-- Globals with a nonzero calibration offset of 100 on every channel,
used to exhibit the wrap-around of the current-code addition. -/
def gOffset : Globals :=
  { gSamsung with led_offset := fun _ => 100 }

/-- Shadow image whose channel-R counter register 2 carries a nonzero
start-delay nibble. -/
def shadowDelay : Nat → Nat := fun i => if i = 0x0a then 0xF0 else 0

/-- Counterexample for C5: steady-encode of current code 200 on channel
R with calibration offset 100 leaves the start-delay field at 15 (the
claim says it is cleared) and stores the wrapped byte (200 + 100) mod
256 = 44 (the claim says the sum saturates at 255). -/
theorem leds_on_steady_counterexample :
    leds_on gOffset shadowDelay 0 true false 200 0x0a = 0xF0 ∧
    leds_on gOffset shadowDelay 0 true false 200 0x03 = 44 ∧
    ¬ (leds_on gOffset shadowDelay 0 true false 200 0x0a / 16 = 0) ∧
    leds_on gOffset shadowDelay 0 true false 200 0x03 ≠ 255 := by
  decide

/-- C5 (amended): for every channel and current code, the steady-encode
operation (`leds_on` with on = true, slopemode = false) sets the
channel's enable bit, clears its slope-mode bit, leaves its start-delay
field untouched, and stores the current-code byte as (code + calibration
offset) mod 256 when the code is nonzero (the addition wraps, it does
not saturate); no other register — in particular no slope, duty or
timing field — is modified, and nothing is committed to the bus. -/
theorem leds_on_steady_spec (g : Globals) (shadow : Nat → Nat) (led : Fin 3) (cc : Nat) :
    (leds_on g shadow led true false cc AN30259A_REG_LEDON).testBit led.val = true ∧
    (leds_on g shadow led true false cc AN30259A_REG_LEDON).testBit (4 + led.val) = false ∧
    leds_on g shadow led true false cc (AN30259A_REG_LED1CNT2 + led.val * 4)
      = shadow (AN30259A_REG_LED1CNT2 + led.val * 4) ∧
    leds_on g shadow led true false cc (AN30259A_REG_LED1CC + led.val)
      = (if cc > 0 then (cc + g.led_offset led.val) % 256 else cc) ∧
    (∀ i, i ≠ AN30259A_REG_LEDON → i ≠ AN30259A_REG_LED1CC + led.val →
      leds_on g shadow led true false cc i = shadow i) := by
  obtain ⟨hL, hCC, hFr⟩ := leds_on_steady_eval g shadow led cc
  refine ⟨?_, ?_, ?_, hCC, hFr⟩
  · rw [hL, testBit_and_other _ _ _ (by fin_cases led <;> decide),
      testBit_set_self _ _ _ (by fin_cases led <;> decide)]
  · rw [hL]
    exact testBit_clear_self _ _ _ (by fin_cases led <;> decide)
  · refine hFr _ ?_ ?_
    · simp only [AN30259A_REG_LEDON, AN30259A_REG_LED1CNT2]
      omega
    · simp only [AN30259A_REG_LED1CC, AN30259A_REG_LED1CNT2]
      omega

/-- Witness for C5: the frame clause applied at the select register. -/
theorem leds_on_steady_spec_witness :
    (AN30259A_REG_SEL ≠ AN30259A_REG_LEDON ∧
     AN30259A_REG_SEL ≠ AN30259A_REG_LED1CC + (0 : Fin 3).val) ∧
    leds_on gSamsung shadow0 0 true false 200 AN30259A_REG_SEL = shadow0 AN30259A_REG_SEL :=
  ⟨⟨by decide, by decide⟩,
   (leds_on_steady_spec gSamsung shadow0 0 200).2.2.2.2 AN30259A_REG_SEL
     (by decide) (by decide)⟩

/-- Enable and slope-mode bits after a steady-on `leds_on` call. -/
theorem leds_on_steady_bits (g : Globals) (shadow : Nat → Nat) (led : Fin 3) (cc : Nat) :
    (leds_on g shadow led true false cc AN30259A_REG_LEDON).testBit led.val = true ∧
    (leds_on g shadow led true false cc AN30259A_REG_LEDON).testBit (4 + led.val) = false := by
  obtain ⟨hL, -, -⟩ := leds_on_steady_eval g shadow led cc
  constructor
  · rw [hL, testBit_and_other _ _ _ (by fin_cases led <;> decide),
      testBit_set_self _ _ _ (by fin_cases led <;> decide)]
  · rw [hL]
    exact testBit_clear_self _ _ _ (by fin_cases led <;> decide)

/-- Enable and slope-mode bits after an off `leds_on` call. -/
theorem leds_on_off_bits (g : Globals) (shadow : Nat → Nat) (led : Fin 3) (cc : Nat) :
    (leds_on g shadow led false false cc AN30259A_REG_LEDON).testBit led.val = false ∧
    (leds_on g shadow led false false cc AN30259A_REG_LEDON).testBit (4 + led.val) = false := by
  obtain ⟨hL, -, -, -⟩ := leds_on_off_eval g shadow led cc
  constructor
  · rw [hL, testBit_and_other _ _ _ (by fin_cases led <;> decide)]
    exact testBit_clear_self _ _ _ (by fin_cases led <;> decide)
  · rw [hL]
    exact testBit_clear_self _ _ _ (by fin_cases led <;> decide)

/-- Counterexample for C7: `set_blink` with off-time 0 and nonzero
requested brightness 1 under the stock intensity scaling (scale 40,
dynamic current 0x28) leaves the channel disabled — 1 * 0x28 / 255 = 0 —
whereas the claim says the channel is enabled. -/
theorem an30259a_set_led_blink_not_enabled :
    ¬ (((an30259a_set_led_blink gSamsung 40 shadow0 0 1000 0 1).1
          AN30259A_REG_LEDON).testBit 0 = true) := by
  decide

/-- C7 (amended): blink-set with brightness 0 forces the channel off
(enable bit cleared) regardless of the on/off timing arguments; with
off-time 0 and nonzero requested brightness it degenerates to steady
behaviour: the slope-mode bit is cleared and no slope timing register
(the counter registers 1, 3, 4 and the slope register) is written, the
channel being enabled when the intensity-scaled brightness is nonzero
and forced off when the scaling yields zero. -/
theorem an30259a_set_led_blink_degenerate (g : Globals) (dyn : Nat) (shadow : Nat → Nat)
    (led : Fin 3) (don doff b : Nat) :
    (b = 0 →
      ((an30259a_set_led_blink g dyn shadow led don doff b).1 AN30259A_REG_LEDON).testBit led.val
        = false) ∧
    (b ≠ 0 → doff = 0 →
      ((an30259a_set_led_blink g dyn shadow led don doff b).1 AN30259A_REG_LEDON).testBit (4 + led.val)
        = false ∧
      (blink_resolved_brightness g led b ≠ 0 →
        ((an30259a_set_led_blink g dyn shadow led don doff b).1 AN30259A_REG_LEDON).testBit led.val
          = true) ∧
      (blink_resolved_brightness g led b = 0 →
        ((an30259a_set_led_blink g dyn shadow led don doff b).1 AN30259A_REG_LEDON).testBit led.val
          = false) ∧
      (∀ i, (i = AN30259A_REG_LED1CNT1 + led.val * 4 ∨ i = AN30259A_REG_LED1CNT3 + led.val * 4 ∨
             i = AN30259A_REG_LED1CNT4 + led.val * 4 ∨ i = AN30259A_REG_LED1SLP + led.val) →
        (an30259a_set_led_blink g dyn shadow led don doff b).1 i = shadow i)) := by
  constructor
  · intro hb
    subst hb
    simp only [an30259a_set_led_blink, LED_OFF, if_pos rfl]
    exact (leds_on_off_bits g shadow led 0).1
  · intro hb hdoff
    subst hdoff
    have hred : (an30259a_set_led_blink g dyn shadow led don 0 b).1 =
        (if blink_resolved_brightness g led b = 0 then
          leds_on g (leds_on g shadow led true false (blink_resolved_brightness g led b)) led
            false false (blink_resolved_brightness g led b)
         else leds_on g shadow led true false (blink_resolved_brightness g led b)) := by
      simp [an30259a_set_led_blink, LED_OFF, hb, SLPTT_MAX_VALUE]
    by_cases hbb : blink_resolved_brightness g led b = 0
    · rw [hred, if_pos hbb]
      refine ⟨(leds_on_off_bits g _ led _).2, fun h => absurd hbb h,
        fun _ => (leds_on_off_bits g _ led _).1, fun i hi => ?_⟩
      have h1 : i ≠ AN30259A_REG_LEDON := by
        rcases hi with h | h | h | h <;> subst h <;>
          simp only [AN30259A_REG_LEDON, AN30259A_REG_LED1CNT1, AN30259A_REG_LED1CNT3,
            AN30259A_REG_LED1CNT4, AN30259A_REG_LED1SLP] <;> omega
      have h2 : i ≠ AN30259A_REG_LED1CNT2 + led.val * 4 := by
        rcases hi with h | h | h | h <;> subst h <;>
          simp only [AN30259A_REG_LED1CNT2, AN30259A_REG_LED1CNT1, AN30259A_REG_LED1CNT3,
            AN30259A_REG_LED1CNT4, AN30259A_REG_LED1SLP] <;> omega
      have h3 : i ≠ AN30259A_REG_LED1CC + led.val := by
        rcases hi with h | h | h | h <;> subst h <;>
          simp only [AN30259A_REG_LED1CC, AN30259A_REG_LED1CNT1, AN30259A_REG_LED1CNT3,
            AN30259A_REG_LED1CNT4, AN30259A_REG_LED1SLP] <;> omega
      rw [(leds_on_off_eval g _ led _).2.2.2 i h1 h2 h3,
        (leds_on_steady_eval g shadow led _).2.2 i h1 h3]
    · rw [hred, if_neg hbb]
      refine ⟨(leds_on_steady_bits g _ led _).2, fun _ => (leds_on_steady_bits g _ led _).1,
        fun h => absurd h hbb, fun i hi => ?_⟩
      have h1 : i ≠ AN30259A_REG_LEDON := by
        rcases hi with h | h | h | h <;> subst h <;>
          simp only [AN30259A_REG_LEDON, AN30259A_REG_LED1CNT1, AN30259A_REG_LED1CNT3,
            AN30259A_REG_LED1CNT4, AN30259A_REG_LED1SLP] <;> omega
      have h3 : i ≠ AN30259A_REG_LED1CC + led.val := by
        rcases hi with h | h | h | h <;> subst h <;>
          simp only [AN30259A_REG_LED1CC, AN30259A_REG_LED1CNT1, AN30259A_REG_LED1CNT3,
            AN30259A_REG_LED1CNT4, AN30259A_REG_LED1SLP] <;> omega
      exact (leds_on_steady_eval g shadow led _).2.2 i h1 h3

/-- Witness for C7: brightness 0 forces channel R off even with nonzero
timing arguments, and brightness 128 with off-time 0 (scaled value
128 * 0x28 / 255 = 20 ≠ 0) enables the channel without slope mode. -/
theorem an30259a_set_led_blink_degenerate_witness :
    ((0 : Nat) = 0 ∧
     ((an30259a_set_led_blink gSamsung 40 shadow0 0 1000 500 0).1
        AN30259A_REG_LEDON).testBit (0 : Fin 3).val = false) ∧
    ((128 : Nat) ≠ 0 ∧ (0 : Nat) = 0 ∧ blink_resolved_brightness gSamsung 0 128 ≠ 0 ∧
     ((an30259a_set_led_blink gSamsung 40 shadow0 0 1000 0 128).1
        AN30259A_REG_LEDON).testBit (0 : Fin 3).val = true ∧
     ((an30259a_set_led_blink gSamsung 40 shadow0 0 1000 0 128).1
        AN30259A_REG_LEDON).testBit (4 + (0 : Fin 3).val) = false) :=
  ⟨⟨rfl, (an30259a_set_led_blink_degenerate gSamsung 40 shadow0 0 1000 500 0).1 rfl⟩,
   ⟨by decide, rfl, by decide,
    ((an30259a_set_led_blink_degenerate gSamsung 40 shadow0 0 1000 0 128).2
      (by decide) rfl).2.1 (by decide),
    ((an30259a_set_led_blink_degenerate gSamsung 40 shadow0 0 1000 0 128).2
      (by decide) rfl).1⟩⟩

/-- C6: with a speed divisor of at least 1 and fade disabled, blink-set
converts each caller-supplied millisecond duration d to a slope-phase
nibble as the ceiling of (d / s) / 500 (with d first clamped to 7500 ms
and d / s an integer division), stores the two nibbles in the channel's
slope register (phase 1 low, phase 2 high), fills both duty nibbles of
counter register 1 with 15 / s, and zeroes all four per-step transition
nibbles (counter registers 3 and 4). -/
theorem an30259a_set_led_blink_times (g : Globals) (dyn : Nat) (shadow : Nat → Nat)
    (led : Fin 3) (don doff b : Nat) (_hs : 1 ≤ g.led_speed) (hf : g.led_enable_fade ≠ 1)
    (hb : b ≠ 0) (hd : doff ≠ 0) :
    (an30259a_set_led_blink g dyn shadow led don doff b).1 (AN30259A_REG_LED1SLP + led.val) % 16
      = (min don SLPTT_MAX_VALUE / g.led_speed) ⌈/⌉ AN30259A_TIME_UNIT ∧
    (an30259a_set_led_blink g dyn shadow led don doff b).1 (AN30259A_REG_LED1SLP + led.val) / 16
      = (min doff SLPTT_MAX_VALUE / g.led_speed) ⌈/⌉ AN30259A_TIME_UNIT ∧
    (an30259a_set_led_blink g dyn shadow led don doff b).1 (AN30259A_REG_LED1CNT1 + led.val * 4) % 16
      = 15 / g.led_speed ∧
    (an30259a_set_led_blink g dyn shadow led don doff b).1 (AN30259A_REG_LED1CNT1 + led.val * 4) / 16
      = 15 / g.led_speed ∧
    (an30259a_set_led_blink g dyn shadow led don doff b).1 (AN30259A_REG_LED1CNT3 + led.val * 4)
      = 0 ∧
    (an30259a_set_led_blink g dyn shadow led don doff b).1 (AN30259A_REG_LED1CNT4 + led.val * 4)
      = 0 := by
  have hb' : ¬ (b = LED_OFF) := by simpa [LED_OFF] using hb
  have hdoff' : ¬ ((if doff > SLPTT_MAX_VALUE then SLPTT_MAX_VALUE else doff) = LED_OFF) := by
    simp only [LED_OFF, SLPTT_MAX_VALUE]
    split <;> omega
  have hred : (an30259a_set_led_blink g dyn shadow led don doff b).1 =
      leds_set_slope_mode (leds_on g shadow led true true (blink_resolved_brightness g led b))
        led 0 (15 / g.led_speed) (15 / g.led_speed) 0
        (((if don > SLPTT_MAX_VALUE then SLPTT_MAX_VALUE else don) / g.led_speed +
            AN30259A_TIME_UNIT - 1) / AN30259A_TIME_UNIT)
        (((if doff > SLPTT_MAX_VALUE then SLPTT_MAX_VALUE else doff) / g.led_speed +
            AN30259A_TIME_UNIT - 1) / AN30259A_TIME_UNIT)
        0 0 0 0 := by
    simp only [an30259a_set_led_blink, if_neg hb', if_neg hdoff', if_neg hf]
  have hmin1 : (if don > SLPTT_MAX_VALUE then SLPTT_MAX_VALUE else don)
      = min don SLPTT_MAX_VALUE := by
    simp only [SLPTT_MAX_VALUE, Nat.min_def]
    split <;> split <;> omega
  have hmin2 : (if doff > SLPTT_MAX_VALUE then SLPTT_MAX_VALUE else doff)
      = min doff SLPTT_MAX_VALUE := by
    simp only [SLPTT_MAX_VALUE, Nat.min_def]
    split <;> split <;> omega
  have hp1 : (min don SLPTT_MAX_VALUE / g.led_speed + AN30259A_TIME_UNIT - 1)
      / AN30259A_TIME_UNIT ≤ 15 := by
    have h1 : min don SLPTT_MAX_VALUE / g.led_speed ≤ 7500 :=
      le_trans (Nat.div_le_self _ _) (by simp [SLPTT_MAX_VALUE])
    calc (min don SLPTT_MAX_VALUE / g.led_speed + AN30259A_TIME_UNIT - 1) / AN30259A_TIME_UNIT
        ≤ 7999 / AN30259A_TIME_UNIT := by
          apply Nat.div_le_div_right
          simp only [AN30259A_TIME_UNIT]
          omega
      _ = 15 := by simp [AN30259A_TIME_UNIT]
  have hp2 : (min doff SLPTT_MAX_VALUE / g.led_speed + AN30259A_TIME_UNIT - 1)
      / AN30259A_TIME_UNIT ≤ 15 := by
    have h1 : min doff SLPTT_MAX_VALUE / g.led_speed ≤ 7500 :=
      le_trans (Nat.div_le_self _ _) (by simp [SLPTT_MAX_VALUE])
    calc (min doff SLPTT_MAX_VALUE / g.led_speed + AN30259A_TIME_UNIT - 1) / AN30259A_TIME_UNIT
        ≤ 7999 / AN30259A_TIME_UNIT := by
          apply Nat.div_le_div_right
          simp only [AN30259A_TIME_UNIT]
          omega
      _ = 15 := by simp [AN30259A_TIME_UNIT]
  have hduty : 15 / g.led_speed ≤ 15 := Nat.div_le_self _ _
  have hceil1 : (min don SLPTT_MAX_VALUE / g.led_speed) ⌈/⌉ AN30259A_TIME_UNIT
      = (min don SLPTT_MAX_VALUE / g.led_speed + AN30259A_TIME_UNIT - 1) / AN30259A_TIME_UNIT := by
    rw [Nat.ceilDiv_eq_add_pred_div]
  have hceil2 : (min doff SLPTT_MAX_VALUE / g.led_speed) ⌈/⌉ AN30259A_TIME_UNIT
      = (min doff SLPTT_MAX_VALUE / g.led_speed + AN30259A_TIME_UNIT - 1) / AN30259A_TIME_UNIT := by
    rw [Nat.ceilDiv_eq_add_pred_div]
  obtain ⟨e1, e2, e3, e4, e5⟩ := leds_set_slope_mode_eval
    (leds_on g shadow led true true (blink_resolved_brightness g led b)) led 0
    (15 / g.led_speed) (15 / g.led_speed) 0
    ((min don SLPTT_MAX_VALUE / g.led_speed + AN30259A_TIME_UNIT - 1) / AN30259A_TIME_UNIT)
    ((min doff SLPTT_MAX_VALUE / g.led_speed + AN30259A_TIME_UNIT - 1) / AN30259A_TIME_UNIT)
    0 0 0 0
  rw [hmin1, hmin2] at hred
  refine ⟨?_, ?_, ?_, ?_, ?_, ?_⟩
  · rw [hred, e5, hceil1, (pack_nibbles _ _ hp2 hp1).2]
  · rw [hred, e5, hceil2, (pack_nibbles _ _ hp2 hp1).1]
  · rw [hred, e1, (pack_nibbles _ _ hduty hduty).2]
  · rw [hred, e1, (pack_nibbles _ _ hduty hduty).1]
  · rw [hred, e3]
    decide
  · rw [hred, e4]
    decide

/-- Witness for C6: the spec's scenario — channel R, on time 1000 ms,
off time 500 ms, brightness 0x80, speed 1, fade disabled — yields phase
nibbles 2 and 1, duty nibbles 15 and 15 and zero transition bytes. -/
theorem an30259a_set_led_blink_times_witness :
    (1 ≤ gSamsung.led_speed ∧ gSamsung.led_enable_fade ≠ 1 ∧ (128 : Nat) ≠ 0 ∧
      (500 : Nat) ≠ 0) ∧
    (an30259a_set_led_blink gSamsung 40 shadow0 0 1000 500 128).1
      (AN30259A_REG_LED1SLP + (0 : Fin 3).val) % 16 = 2 ∧
    (an30259a_set_led_blink gSamsung 40 shadow0 0 1000 500 128).1
      (AN30259A_REG_LED1SLP + (0 : Fin 3).val) / 16 = 1 ∧
    (an30259a_set_led_blink gSamsung 40 shadow0 0 1000 500 128).1
      (AN30259A_REG_LED1CNT1 + (0 : Fin 3).val * 4) % 16 = 15 ∧
    (an30259a_set_led_blink gSamsung 40 shadow0 0 1000 500 128).1
      (AN30259A_REG_LED1CNT1 + (0 : Fin 3).val * 4) / 16 = 15 ∧
    (an30259a_set_led_blink gSamsung 40 shadow0 0 1000 500 128).1
      (AN30259A_REG_LED1CNT3 + (0 : Fin 3).val * 4) = 0 ∧
    (an30259a_set_led_blink gSamsung 40 shadow0 0 1000 500 128).1
      (AN30259A_REG_LED1CNT4 + (0 : Fin 3).val * 4) = 0 :=
  ⟨⟨by decide, by decide, by decide, by decide⟩,
   (an30259a_set_led_blink_times gSamsung 40 shadow0 0 1000 500 128
      (by decide) (by decide) (by decide) (by decide)).1.trans (by decide),
   (an30259a_set_led_blink_times gSamsung 40 shadow0 0 1000 500 128
      (by decide) (by decide) (by decide) (by decide)).2.1.trans (by decide),
   (an30259a_set_led_blink_times gSamsung 40 shadow0 0 1000 500 128
      (by decide) (by decide) (by decide) (by decide)).2.2.1.trans (by decide),
   (an30259a_set_led_blink_times gSamsung 40 shadow0 0 1000 500 128
      (by decide) (by decide) (by decide) (by decide)).2.2.2.1.trans (by decide),
   (an30259a_set_led_blink_times gSamsung 40 shadow0 0 1000 500 128
      (by decide) (by decide) (by decide) (by decide)).2.2.2.2.1,
   (an30259a_set_led_blink_times gSamsung 40 shadow0 0 1000 500 128
      (by decide) (by decide) (by decide) (by decide)).2.2.2.2.2⟩

/-- Globals with the "disable samsung pattern" flag set. -/
def gDisabled : Globals :=
  { gSamsung with disabled_samsung_pattern := 1 }

/-- Shadow image with enable and slope bits set on all channels
(0x37 = 0b110111). -/
def shadow55 : Nat → Nat := fun _ => 55

/-- Counterexample for C3: with the disable-named-patterns flag set, a
CHARGING request leaves the enable byte at 0x37 — its three enable bits
still set (0x37 &&& 7 = 7 ≠ 0) — so the all-channels-off reset
sub-sequence claimed by C3 was not performed. -/
theorem an30259a_start_led_pattern_disabled_no_reset :
    (an30259a_start_led_pattern gDisabled 40 shadow55 CHARGING).map
        (fun p => p.1 AN30259A_REG_LEDON &&& 7) = some 7 ∧
    (7 : Nat) ≠ 0 := by
  exact ⟨rfl, by decide⟩

/-- C3 (amended): when the disable-named-patterns flag is set or the
requested index exceeds the last enumerated pattern (POWERING), the
pattern operation returns immediately and performs no register mutation
at all — not even the reset sub-sequence; only a negative (hence also
out-of-enumeration) index performs the reset sub-sequence and then halts
with no further register mutation. -/
theorem an30259a_start_led_pattern_guard (g : Globals) (dyn : Nat) (shadow : Nat → Nat)
    (mode : Int) :
    (g.disabled_samsung_pattern ≠ 0 ∨ mode > POWERING →
      an30259a_start_led_pattern g dyn shadow mode = some (shadow, dyn)) ∧
    (mode < 0 → g.disabled_samsung_pattern = 0 →
      an30259a_start_led_pattern g dyn shadow mode
        = some (an30259a_reset_register_work g shadow,
            if g.LED_LOWPOWER_MODE = 1 then g.led_lowpower_cur % 256
            else g.led_default_cur % 256)) := by
  constructor
  · intro h
    by_cases hm : mode > POWERING
    · simp [an30259a_start_led_pattern, hm]
    · rcases h with hd | hm2
      · simp [an30259a_start_led_pattern, hm, hd]
      · exact absurd hm2 hm
  · intro hm hd
    have h6 : ¬ (mode > POWERING) := by
      simp only [POWERING]
      omega
    have h0 : ¬ (mode = 0) := by omega
    have hc1 : ¬ (mode = CHARGING) := by
      simp only [CHARGING]
      omega
    have hc2 : ¬ (mode = CHARGING_ERR) := by
      simp only [CHARGING_ERR]
      omega
    have hc3 : ¬ (mode = MISSED_NOTI) := by
      simp only [MISSED_NOTI]
      omega
    have hc4 : ¬ (mode = LOW_BATTERY) := by
      simp only [LOW_BATTERY]
      omega
    have hc5 : ¬ (mode = FULLY_CHARGED) := by
      simp only [FULLY_CHARGED]
      omega
    have hc6 : ¬ (mode = POWERING) := by
      simp only [POWERING]
      omega
    simp [an30259a_start_led_pattern, h6, hd, h0, hc1, hc2, hc3, hc4, hc5, hc6]

/-- Witness for C3: disable flag set at mode CHARGING is a no-op even on
a fully lit image, and the negative index -1 with the flag clear
performs exactly the reset. -/
theorem an30259a_start_led_pattern_guard_witness :
    (gDisabled.disabled_samsung_pattern ≠ 0 ∨ CHARGING > POWERING) ∧
    an30259a_start_led_pattern gDisabled 40 shadow55 CHARGING = some (shadow55, 40) ∧
    ((-1 : Int) < 0 ∧ gSamsung.disabled_samsung_pattern = 0 ∧
     an30259a_start_led_pattern gSamsung 40 shadow0 (-1)
       = some (an30259a_reset_register_work gSamsung shadow0,
           if gSamsung.LED_LOWPOWER_MODE = 1 then gSamsung.led_lowpower_cur % 256
           else gSamsung.led_default_cur % 256)) :=
  ⟨Or.inl (by decide),
   (an30259a_start_led_pattern_guard gDisabled 40 shadow55 CHARGING).1 (Or.inl (by decide)),
   by decide, by decide,
   (an30259a_start_led_pattern_guard gSamsung 40 shadow0 (-1)).2 (by decide) (by decide)⟩

/-- Globals with speed divisor 0 ("continuous light"), a value the speed
setter accepts. -/
def gSpeed0 : Globals :=
  { gSamsung with led_speed := 0 }

/-- C4 exhibit: the speed setter accepts the parsed value 0, and the
CHARGING_ERR pattern under speed divisor 0 runs into a division of 15 by
the zero divisor — in the checked embedding the run is `none`, i.e. the
C code performs an unguarded integer division by zero (undefined
behaviour) instead of the guarded "use undivided constant" fallback the
claim describes. -/
theorem an30259a_start_led_pattern_speed0_divides :
    store_an30259a_led_speed 1 0 = 0 ∧
    an30259a_start_led_pattern gSpeed0 40 shadow0 CHARGING_ERR = none :=
  ⟨rfl, rfl⟩
